import Mathlib

/-
Verification of the xcomponent safety wrapper (src/src/lib.rs).

Shallow embedding conventions:
- Raw pointers are natural-number addresses; 0 is the null pointer.
- The native C ABI (an external collaborator the wrapper calls into) is a
  record of functions supplied as a parameter.  Each native call is modelled
  by what it returns and what it writes into the caller-supplied output
  slots; an output slot that the native side did not write is `none`.
- An out-parameter of type `MaybeUninit<T>` is modelled as `Option T`:
  `none` is "still uninitialized".  Calling `assume_init` on uninitialized
  storage is undefined behaviour; the embedding of `get_touch_event`
  therefore returns `Option (Except Int TouchEvent)`, where the outer
  `none` marks that undefined-behaviour branch.
- `size` asserts (aborting the process) on a non-zero status; the abort is
  modelled as the `none` result of `Option Size`.
-/

/-- Embedding of `core::ptr::NonNull::new`: `some p` iff `p` is non-null. -/
def NonNull.new (p : Nat) : Option Nat :=
  if p = 0 then none else some p

/-- Embedding of the `Size` struct (lib.rs lines 42-46): width and height
are `u64` magnitudes.  The zero-length `_opaque` array carries no data and
is omitted. -/
structure Size where
  width : Nat
  height : Nat
  deriving DecidableEq

/-- Embedding of `OH_NativeXComponent_TouchEvent`: an opaque fixed-layout
record the wrapper never interprets, modelled as its raw bytes. -/
structure TouchEvent where
  bytes : List Nat
  deriving DecidableEq

/-- Embedding of the `XComponent` struct (lib.rs lines 48-52): two
validated (non-null) pointers.  `PhantomData` carries no data and the
lifetime parameter has no runtime content. -/
structure XComponent where
  xcomponent : Nat
  window : Nat
  deriving DecidableEq

/-- The native C ABI the wrapper calls into.  Each function takes the raw
pointer arguments the wrapper passes and yields the returned status code
together with what it wrote into the output slots of the caller (`none` for a
slot it left untouched). -/
structure NativeEnv where
  getTouchEvent : Nat → Nat → Int × Option TouchEvent
  getXComponentSize : Nat → Nat → Int × Option Nat × Option Nat
  registerCallback : Nat → Nat → Int

/-- Embedding of `XComponent::new` (lib.rs lines 55-64): both pointers are
passed through `NonNull::new` with `?`-propagation. -/
def XComponent.new (xcomponent window : Nat) : Option XComponent := do
  let xc ← NonNull.new xcomponent
  let w ← NonNull.new window
  some { xcomponent := xc, window := w }

/-- Embedding of `XComponent::get_touch_event` (lib.rs lines 66-83):
uninitialized storage is handed to the native call; a non-zero status is
returned as `Except.error` (after an error-severity log, a diagnostic
side effect with no bearing on the result); on status 0 the storage is
`assume_init`ed and returned.  The outer `none` marks the
undefined-behaviour case where the native side reported success without
initializing the storage. -/
def XComponent.get_touch_event (env : NativeEnv) (self : XComponent) :
    Option (Except Int TouchEvent) :=
  let st := env.getTouchEvent self.xcomponent self.window
  if st.1 ≠ 0 then
    some (Except.error st.1)
  else
    match st.2 with
    | some ev => some (Except.ok ev)
    | none => none

/-- Embedding of `XComponent::size` (lib.rs lines 86-103): the two output
slots start at 0, the native call may overwrite them, and
`assert_eq!(res, 0, ..)` aborts the process (modelled as `none`) on any
non-zero status; on status 0 the final slot values are returned as a
`Size`. -/
def XComponent.size (env : NativeEnv) (self : XComponent) : Option Size :=
  let st := env.getXComponentSize self.xcomponent self.window
  if st.1 = 0 then
    some { width := st.2.1.getD 0, height := st.2.2.getD 0 }
  else
    none

/-- The two query operations, as a single type so that sequences of
queries can be formed. -/
inductive Query where
  | querySize : Query
  | queryTouch : Query
  deriving DecidableEq

instance {ε α : Type} [DecidableEq ε] [DecidableEq α] :
    DecidableEq (Except ε α) := fun a b =>
  match a, b with
  | .error x, .error y =>
      if h : x = y then isTrue (by rw [h]) else isFalse (by simp [h])
  | .error _, .ok _ => isFalse (by simp)
  | .ok _, .error _ => isFalse (by simp)
  | .ok x, .ok y =>
      if h : x = y then isTrue (by rw [h]) else isFalse (by simp [h])

/-- Output of one query. -/
inductive QueryOutput where
  | sizeOut : Option Size → QueryOutput
  | touchOut : Option (Except Int TouchEvent) → QueryOutput
  deriving DecidableEq

/-- Running one query on a handle.  Both source methods take `&self` on a
struct without interior mutability, so the handle value after the call is
the embedding of the (unchanged) handle the method borrowed. -/
def runQuery (env : NativeEnv) (q : Query) (xc : XComponent) :
    XComponent × QueryOutput :=
  match q with
  | .querySize => (xc, .sizeOut (xc.size env))
  | .queryTouch => (xc, .touchOut (xc.get_touch_event env))

/-- Running a sequence of queries, threading the handle through. -/
def runQueries (env : NativeEnv) (qs : List Query) (xc : XComponent) :
    XComponent × List QueryOutput :=
  match qs with
  | [] => (xc, [])
  | q :: rest =>
      let step := runQuery env q xc
      let tail := runQueries env rest step.1
      (tail.1, step.2 :: tail.2)

/-- Embedding of the `RegisterCallbackError` enum (lib.rs lines 109-113). -/
inductive RegisterCallbackError where
  | XcomponentPropertyMissing : String → RegisterCallbackError
  | UnwrapXComponentFailed : Int → RegisterCallbackError
  | RegisterCallbackFailed : Int → RegisterCallbackError
  deriving DecidableEq

/-- A napi `JsObject`, reduced to its raw handle (all the wrapper uses). -/
structure JsObject where
  raw : Nat
  deriving DecidableEq

/-- The host-embedding (napi) surface the registration path consumes:
named-property lookup on the exports object (failing with an error
message), and `napi_unwrap`, which takes the raw environment and the raw
object and yields a status code plus what it wrote into the out-slot
(`none` if it left the slot untouched). -/
structure NapiSurface where
  getNamedProperty : String → Except String JsObject
  napiUnwrap : Nat → Nat → Int × Option Nat

/-- The property name looked up on the exports object. -/
def nativeXComponentObjKey : String := "__NATIVE_XCOMPONENT_OBJ__"

/-- Observable steps of the registration protocol, recorded in order.
`registerCall c a` records the component pointer `c` and callback-table
address `a` passed to `OH_NativeXComponent_RegisterCallback`. -/
inductive RegStep where
  | lookupProperty : String → RegStep
  | unwrapCall : RegStep
  | registerCall : Nat → Nat → RegStep
  deriving DecidableEq

/-- Embedding of `register_xcomponent_callbacks` (lib.rs lines 171-204):
look up `__NATIVE_XCOMPONENT_OBJ__` on the exports object (missing →
`XcomponentPropertyMissing` with the error message); initialize the
component out-slot to null and call `napi_unwrap` (non-zero status →
`UnwrapXComponentFailed`); call the native registration ABI with the
slot value and the address of the static-lifetime callback table (non-zero status
→ `RegisterCallbackFailed`).  The trace records each step performed. -/
def register_xcomponent_callbacks (native : NativeEnv) (exports : NapiSurface)
    (rawEnv : Nat) (callbacksAddr : Nat) :
    List RegStep × Except RegisterCallbackError Unit :=
  match exports.getNamedProperty nativeXComponentObjKey with
  | .error e =>
      ([.lookupProperty nativeXComponentObjKey],
       .error (.XcomponentPropertyMissing e))
  | .ok obj =>
      let raw := obj.raw
      let st := exports.napiUnwrap rawEnv raw
      let native_xcomponent := st.2.getD 0
      if st.1 ≠ 0 then
        ([.lookupProperty nativeXComponentObjKey, .unwrapCall],
         .error (.UnwrapXComponentFailed st.1))
      else
        let res2 := native.registerCallback native_xcomponent callbacksAddr
        if res2 ≠ 0 then
          ([.lookupProperty nativeXComponentObjKey, .unwrapCall,
            .registerCall native_xcomponent callbacksAddr],
           .error (.RegisterCallbackFailed res2))
        else
          ([.lookupProperty nativeXComponentObjKey, .unwrapCall,
            .registerCall native_xcomponent callbacksAddr],
           .ok ())

/-- Number of native registration attempts recorded in a trace. -/
def countRegisterAttempts (tr : List RegStep) : Nat :=
  tr.countP fun s =>
    match s with
    | .registerCall _ _ => true
    | _ => false

/-- Embedding of the `OH_NativeXComponent_Callback` table: four optional
function-pointer slots, modelled as code addresses. -/
structure CallbackTable where
  onSurfaceCreated : Option Nat
  onSurfaceChanged : Option Nat
  onSurfaceDestroyed : Option Nat
  dispatchTouchEvent : Option Nat
  deriving DecidableEq

/-- A heap of callback-table allocations: the next fresh address and the
live blocks.  A block is freed only by removing it from `blocks`; no
operation in this development ever does. -/
structure Heap where
  nextAddr : Nat
  blocks : List (Nat × CallbackTable)
  deriving DecidableEq

/-- Modelled from the spec: the direct registration entry shape
(spec section 4.4, shape (a)) is the alternative feature configuration of
lib.rs that is not present under src/.  Per the spec, it takes an
already-validated handle and a callback table by value, moves the table
to a heap allocation, deliberately leaks that allocation (it is never
freed, so its address stays valid indefinitely), passes that address to
the native registration ABI, and on a non-zero status returns the typed
failure carrying the code. -/
def register_xcomponent_callbacks_direct (native : NativeEnv) (heap : Heap)
    (xc : XComponent) (table : CallbackTable) :
    Heap × List RegStep × Except RegisterCallbackError Unit :=
  let addr := heap.nextAddr
  let heap2 : Heap :=
    { nextAddr := heap.nextAddr + 1, blocks := (addr, table) :: heap.blocks }
  let res := native.registerCallback xc.xcomponent addr
  if res ≠ 0 then
    (heap2, [.registerCall xc.xcomponent addr],
     .error (.RegisterCallbackFailed res))
  else
    (heap2, [.registerCall xc.xcomponent addr], .ok ())

/- Theorems. -/

/-- C1: `XComponent::new` returns `some` handle if and only if both raw
pointers are non-null, and returns `none` whenever either is null.  The
embedding is a pure function, so the operation has no side effects. -/
theorem xcomponent_new_some_iff_nonnull (c w : Nat) :
    ((XComponent.new c w).isSome ↔ (c ≠ 0 ∧ w ≠ 0)) ∧
      ((c = 0 ∨ w = 0) → XComponent.new c w = none) := by
  unfold XComponent.new NonNull.new
  by_cases hc : c = 0 <;> by_cases hw : w = 0 <;>
    simp [hc, hw, Option.bind]

/-- Witness for C1 at the concrete pairs (3, 5) and (0, 7). -/
theorem xcomponent_new_some_iff_nonnull_witness :
    (XComponent.new 3 5).isSome ∧ XComponent.new 0 7 = none :=
  ⟨(xcomponent_new_some_iff_nonnull 3 5).1.mpr (by decide),
   (xcomponent_new_some_iff_nonnull 0 7).2 (Or.inl rfl)⟩

/-- C2: when the native touch-event query reports a non-zero status,
`get_touch_event` returns the failure variant carrying exactly that
status code.  The hypothesis constrains only the status component of the
native call, so the conclusion holds whatever the native side wrote (or
did not write) into the output storage: the storage is never read,
interpreted, or returned. -/
theorem get_touch_event_error_on_nonzero_status (env : NativeEnv)
    (xc : XComponent) (res : Int)
    (hres : (env.getTouchEvent xc.xcomponent xc.window).1 = res)
    (hnz : res ≠ 0) :
    xc.get_touch_event env = some (Except.error res) := by
  unfold XComponent.get_touch_event
  simp [hres, hnz]

def touchFailEnv : NativeEnv :=
  { getTouchEvent := fun _ _ => (7, none)
  , getXComponentSize := fun _ _ => (0, some 0, some 0)
  , registerCallback := fun _ _ => 0 }

/-- Witness for C2: a native side that returns status 7 and writes
nothing. -/
theorem get_touch_event_error_on_nonzero_status_witness :
    (touchFailEnv.getTouchEvent 1 2).1 = 7 ∧ (7 : Int) ≠ 0 ∧
      XComponent.get_touch_event touchFailEnv ⟨1, 2⟩ =
        some (Except.error 7) :=
  ⟨rfl, by decide,
   get_touch_event_error_on_nonzero_status touchFailEnv ⟨1, 2⟩ 7 rfl
     (by decide)⟩

/-- C3: when the native size query reports a non-zero status, `size`
aborts the process via the failed assertion (the `none` result of the
embedding) and returns no `Size` value, partial or default. -/
theorem size_aborts_on_nonzero_status (env : NativeEnv) (xc : XComponent)
    (res : Int)
    (hres : (env.getXComponentSize xc.xcomponent xc.window).1 = res)
    (hnz : res ≠ 0) :
    xc.size env = none := by
  unfold XComponent.size
  simp [hres, hnz]

def sizeFailEnv : NativeEnv :=
  { getTouchEvent := fun _ _ => (0, some ⟨[]⟩)
  , getXComponentSize := fun _ _ => (9, none, none)
  , registerCallback := fun _ _ => 0 }

/-- Witness for C3: a native side whose size query returns status 9. -/
theorem size_aborts_on_nonzero_status_witness :
    (sizeFailEnv.getXComponentSize 1 2).1 = 9 ∧ (9 : Int) ≠ 0 ∧
      XComponent.size sizeFailEnv ⟨1, 2⟩ = none :=
  ⟨rfl, by decide,
   size_aborts_on_nonzero_status sizeFailEnv ⟨1, 2⟩ 9 rfl (by decide)⟩

/-- C5: when the native size query writes width and height into the two
output slots and reports status 0, `size` returns exactly those values
as a `Size`. -/
theorem size_returns_written_values (env : NativeEnv) (xc : XComponent)
    (wv hv : Nat)
    (hcall : env.getXComponentSize xc.xcomponent xc.window =
      (0, some wv, some hv)) :
    xc.size env = some { width := wv, height := hv } := by
  unfold XComponent.size
  simp [hcall]

def sizeOkEnv : NativeEnv :=
  { getTouchEvent := fun _ _ => (0, some ⟨[]⟩)
  , getXComponentSize := fun _ _ => (0, some 1920, some 1080)
  , registerCallback := fun _ _ => 0 }

/-- Witness for C5: a native side writing (1920, 1080) with status 0. -/
theorem size_returns_written_values_witness :
    sizeOkEnv.getXComponentSize 1 2 = (0, some 1920, some 1080) ∧
      XComponent.size sizeOkEnv ⟨1, 2⟩ =
        some { width := 1920, height := 1080 } :=
  ⟨rfl, size_returns_written_values sizeOkEnv ⟨1, 2⟩ 1920 1080 rfl⟩

/-- C6: when the native touch-event query fills the output record and
reports status 0, `get_touch_event` returns `Ok` with exactly the bytes
the native side wrote, unaltered and uninterpreted. -/
theorem get_touch_event_returns_written_record (env : NativeEnv)
    (xc : XComponent) (ev : TouchEvent)
    (hcall : env.getTouchEvent xc.xcomponent xc.window = (0, some ev)) :
    xc.get_touch_event env = some (Except.ok ev) := by
  unfold XComponent.get_touch_event
  simp [hcall]

def touchOkEnv : NativeEnv :=
  { getTouchEvent := fun _ _ => (0, some ⟨[1, 2, 3, 4]⟩)
  , getXComponentSize := fun _ _ => (0, some 0, some 0)
  , registerCallback := fun _ _ => 0 }

/-- Witness for C6: a native side writing the byte pattern [1, 2, 3, 4]
with status 0. -/
theorem get_touch_event_returns_written_record_witness :
    touchOkEnv.getTouchEvent 1 2 = (0, some ⟨[1, 2, 3, 4]⟩) ∧
      XComponent.get_touch_event touchOkEnv ⟨1, 2⟩ =
        some (Except.ok ⟨[1, 2, 3, 4]⟩) :=
  ⟨rfl,
   get_touch_event_returns_written_record touchOkEnv ⟨1, 2⟩ ⟨[1, 2, 3, 4]⟩
     rfl⟩

theorem runQuery_fst_eq (env : NativeEnv) (q : Query) (xc : XComponent) :
    (runQuery env q xc).1 = xc := by
  cases q <;> rfl

/-- C8: queries never mutate the handle: any sequence of size and
touch-event queries leaves the handle identical, and the output of each query
equals the output of that query run alone on the original handle — the
queries are independent and order-insensitive. -/
theorem queries_leave_handle_unchanged (env : NativeEnv) (qs : List Query)
    (xc : XComponent) :
    (runQueries env qs xc).1 = xc ∧
      (runQueries env qs xc).2 = qs.map (fun q => (runQuery env q xc).2) := by
  induction qs with
  | nil => exact ⟨rfl, rfl⟩
  | cons q rest ih =>
      refine ⟨?_, ?_⟩ <;>
        simp [runQueries, runQuery_fst_eq, ih.1, ih.2]

/-- C4: the host-object registration path returns exactly one of the
three typed errors, and the first applicable failure is reported with no
later protocol step executed: a missing property yields
`XcomponentPropertyMissing` with the message and stops before the unwrap
and registration calls; a non-zero unwrap status yields
`UnwrapXComponentFailed` with that code and stops before the
registration call; a non-zero registration status yields
`RegisterCallbackFailed` with that code. -/
theorem register_error_taxonomy (native : NativeEnv) (exports : NapiSurface)
    (rawEnv addr : Nat) :
    (∀ msg, exports.getNamedProperty nativeXComponentObjKey = .error msg →
        register_xcomponent_callbacks native exports rawEnv addr =
          ([.lookupProperty nativeXComponentObjKey],
           .error (.XcomponentPropertyMissing msg))) ∧
    (∀ obj res w,
        exports.getNamedProperty nativeXComponentObjKey = .ok obj →
        exports.napiUnwrap rawEnv obj.raw = (res, w) → res ≠ 0 →
        register_xcomponent_callbacks native exports rawEnv addr =
          ([.lookupProperty nativeXComponentObjKey, .unwrapCall],
           .error (.UnwrapXComponentFailed res))) ∧
    (∀ obj w res2,
        exports.getNamedProperty nativeXComponentObjKey = .ok obj →
        exports.napiUnwrap rawEnv obj.raw = (0, w) →
        native.registerCallback (w.getD 0) addr = res2 → res2 ≠ 0 →
        register_xcomponent_callbacks native exports rawEnv addr =
          ([.lookupProperty nativeXComponentObjKey, .unwrapCall,
            .registerCall (w.getD 0) addr],
           .error (.RegisterCallbackFailed res2))) := by
  refine ⟨?_, ?_, ?_⟩
  · intro msg hmsg
    unfold register_xcomponent_callbacks
    rw [hmsg]
  · intro obj res w hobj hunwrap hres
    unfold register_xcomponent_callbacks
    rw [hobj]
    simp [hunwrap, hres]
  · intro obj w res2 hobj hunwrap hreg hres2
    unfold register_xcomponent_callbacks
    rw [hobj]
    simp [hunwrap, hreg, hres2]

def propMissingMsg : String := "__NATIVE_XCOMPONENT_OBJ__ not found"

def napiMissingProp : NapiSurface :=
  { getNamedProperty := fun _ => .error propMissingMsg
  , napiUnwrap := fun _ _ => (5, none) }

def napiUnwrapFails : NapiSurface :=
  { getNamedProperty := fun _ => .ok ⟨11⟩
  , napiUnwrap := fun _ _ => (6, none) }

def napiUnwrapOk : NapiSurface :=
  { getNamedProperty := fun _ => .ok ⟨11⟩
  , napiUnwrap := fun _ _ => (0, some 13) }

def registerFailEnv : NativeEnv :=
  { getTouchEvent := fun _ _ => (0, some ⟨[]⟩)
  , getXComponentSize := fun _ _ => (0, some 0, some 0)
  , registerCallback := fun _ _ => 8 }

/-- Witness for C4: the three failure scenarios at concrete
environments. -/
theorem register_error_taxonomy_witness :
    register_xcomponent_callbacks registerFailEnv napiMissingProp 1 42 =
        ([.lookupProperty nativeXComponentObjKey],
         .error (.XcomponentPropertyMissing propMissingMsg)) ∧
      register_xcomponent_callbacks registerFailEnv napiUnwrapFails 1 42 =
        ([.lookupProperty nativeXComponentObjKey, .unwrapCall],
         .error (.UnwrapXComponentFailed 6)) ∧
      register_xcomponent_callbacks registerFailEnv napiUnwrapOk 1 42 =
        ([.lookupProperty nativeXComponentObjKey, .unwrapCall,
          .registerCall 13 42],
         .error (.RegisterCallbackFailed 8)) :=
  ⟨(register_error_taxonomy registerFailEnv napiMissingProp 1 42).1
      propMissingMsg rfl,
   (register_error_taxonomy registerFailEnv napiUnwrapFails 1 42).2.1
      ⟨11⟩ 6 none rfl rfl (by decide),
   (register_error_taxonomy registerFailEnv napiUnwrapOk 1 42).2.2
      ⟨11⟩ (some 13) 8 rfl rfl rfl (by decide)⟩

/-- C9: the core imposes no one-shot guard on registration: whenever the
property lookup and unwrap succeed, a call performs the full protocol and
attempts the native registration, so two sequential calls attempt it
twice — regardless of the status the native registration call returns
(in particular, regardless of whether the first call succeeded). -/
theorem register_no_one_shot_guard (native : NativeEnv)
    (exports : NapiSurface) (rawEnv addr : Nat) (obj : JsObject)
    (w : Option Nat)
    (hobj : exports.getNamedProperty nativeXComponentObjKey = .ok obj)
    (hunwrap : exports.napiUnwrap rawEnv obj.raw = (0, w)) :
    countRegisterAttempts
        ((register_xcomponent_callbacks native exports rawEnv addr).1 ++
          (register_xcomponent_callbacks native exports rawEnv addr).1) =
      2 := by
  unfold register_xcomponent_callbacks
  rw [hobj]
  by_cases hreg : native.registerCallback (w.getD 0) addr ≠ 0 <;>
    simp [hunwrap, hreg, countRegisterAttempts]

def napiUnwrapOkB : NapiSurface :=
  { getNamedProperty := fun _ => .ok ⟨21⟩
  , napiUnwrap := fun _ _ => (0, some 23) }

def registerOkEnv : NativeEnv :=
  { getTouchEvent := fun _ _ => (0, some ⟨[]⟩)
  , getXComponentSize := fun _ _ => (0, some 0, some 0)
  , registerCallback := fun _ _ => 0 }

/-- Witness for C9: with a successful lookup, unwrap, and first
registration, two sequential calls record two native registration
attempts. -/
theorem register_no_one_shot_guard_witness :
    napiUnwrapOkB.getNamedProperty nativeXComponentObjKey = .ok ⟨21⟩ ∧
      napiUnwrapOkB.napiUnwrap 1 21 = (0, some 23) ∧
      countRegisterAttempts
          ((register_xcomponent_callbacks registerOkEnv napiUnwrapOkB 1 42).1 ++
            (register_xcomponent_callbacks registerOkEnv napiUnwrapOkB 1 42).1) =
        2 :=
  ⟨rfl, rfl,
   register_no_one_shot_guard registerOkEnv napiUnwrapOkB 1 42 ⟨21⟩
     (some 23) rfl rfl⟩

/-- C10: in the host-object registration path, the component out-slot is
initialized to null (0) before the unwrap; if the unwrap reports status 0
without writing the slot, the null component pointer is forwarded to the
native registration ABI with no null check — unlike `XComponent::new`,
this path never validates non-nullness. -/
theorem register_forwards_null_component (native : NativeEnv)
    (exports : NapiSurface) (rawEnv addr : Nat) (obj : JsObject)
    (hobj : exports.getNamedProperty nativeXComponentObjKey = .ok obj)
    (hunwrap : exports.napiUnwrap rawEnv obj.raw = (0, none)) :
    (register_xcomponent_callbacks native exports rawEnv addr).1 =
      [.lookupProperty nativeXComponentObjKey, .unwrapCall,
       .registerCall 0 addr] := by
  unfold register_xcomponent_callbacks
  rw [hobj]
  by_cases hreg : native.registerCallback 0 addr ≠ 0 <;>
    simp [hunwrap, hreg]

def napiUnwrapNoWrite : NapiSurface :=
  { getNamedProperty := fun _ => .ok ⟨31⟩
  , napiUnwrap := fun _ _ => (0, none) }

/-- Witness for C10: an unwrap reporting success without writing the
slot; the registration ABI receives the null pointer 0. -/
theorem register_forwards_null_component_witness :
    napiUnwrapNoWrite.getNamedProperty nativeXComponentObjKey = .ok ⟨31⟩ ∧
      napiUnwrapNoWrite.napiUnwrap 1 31 = (0, none) ∧
      (register_xcomponent_callbacks registerOkEnv napiUnwrapNoWrite 1 42).1 =
        [.lookupProperty nativeXComponentObjKey, .unwrapCall,
         .registerCall 0 42] :=
  ⟨rfl, rfl,
   register_forwards_null_component registerOkEnv napiUnwrapNoWrite 1 42
     ⟨31⟩ rfl rfl⟩

/-- C7: the direct registration entry point (modelled from the spec, see
`register_xcomponent_callbacks_direct`) moves the table to a fresh heap
allocation that is present in the final heap whatever the outcome (the
allocation is leaked, never freed), passes exactly the address of that
allocation to the native registration ABI, and on a non-zero status returns
the typed failure carrying the code. -/
theorem register_direct_leaks_table (native : NativeEnv) (heap : Heap)
    (xc : XComponent) (table : CallbackTable) :
    ((register_xcomponent_callbacks_direct native heap xc table).1).blocks =
        (heap.nextAddr, table) :: heap.blocks ∧
      (register_xcomponent_callbacks_direct native heap xc table).2.1 =
        [.registerCall xc.xcomponent heap.nextAddr] ∧
      (∀ res, native.registerCallback xc.xcomponent heap.nextAddr = res →
        res ≠ 0 →
        (register_xcomponent_callbacks_direct native heap xc table).2.2 =
          .error (.RegisterCallbackFailed res)) := by
  unfold register_xcomponent_callbacks_direct
  by_cases hreg : native.registerCallback xc.xcomponent heap.nextAddr ≠ 0
  · refine ⟨by simp [hreg], by simp [hreg], ?_⟩
    intro res hres _
    simp [hreg, hres.symm]
  · refine ⟨by simp [hreg], by simp [hreg], ?_⟩
    intro res hres hnz
    exact absurd (hres ▸ hnz) (by simpa using hreg)

def sampleTable : CallbackTable :=
  { onSurfaceCreated := some 101
  , onSurfaceChanged := none
  , onSurfaceDestroyed := none
  , dispatchTouchEvent := some 104 }

/-- Witness for C7: a native side whose registration call returns status
8; the table is leaked at address 50, that address is passed to the ABI,
and the typed failure carries 8. -/
theorem register_direct_leaks_table_witness :
    ((register_xcomponent_callbacks_direct registerFailEnv ⟨50, []⟩ ⟨1, 2⟩
          sampleTable).1).blocks = [(50, sampleTable)] ∧
      (register_xcomponent_callbacks_direct registerFailEnv ⟨50, []⟩ ⟨1, 2⟩
          sampleTable).2.1 = [.registerCall 1 50] ∧
      (register_xcomponent_callbacks_direct registerFailEnv ⟨50, []⟩ ⟨1, 2⟩
          sampleTable).2.2 = .error (.RegisterCallbackFailed 8) :=
  ⟨(register_direct_leaks_table registerFailEnv ⟨50, []⟩ ⟨1, 2⟩ sampleTable).1,
   (register_direct_leaks_table registerFailEnv ⟨50, []⟩ ⟨1, 2⟩
      sampleTable).2.1,
   (register_direct_leaks_table registerFailEnv ⟨50, []⟩ ⟨1, 2⟩
      sampleTable).2.2 8 rfl (by decide)⟩
